import Mathlib

/-!
Verification of `toy-container` (`src/app/src/main/cpp/container_native.cpp`)
against its natural-language specification.

The native source consists of one JNI entry point:

```c
extern "C" JNIEXPORT jint JNICALL
Java_com_toycontainer_Container_createNamespacedProcess(JNIEnv* env, jclass clazz) {
    int flags = CLONE_NEWUTS | CLONE_NEWPID | CLONE_NEWNS;
    return flags;
}
```

We embed this function shallowly, together with an effect-trace model that
records every system call the body would perform (there are none), and an
ambient-state model to express frame conditions.  The `NamespaceLauncher`
design described in the specification (launch / wait / child setup ordering)
has no implementation under `src/`; those parts are modelled from the
specification's words and each such definition is marked accordingly.
-/

/-! ## Flag constants

Values of the Linux clone-flag constants from `<sched.h>`, which the source
file includes.  (Linux ABI: `CLONE_NEWNS = 0x00020000`,
`CLONE_NEWUTS = 0x04000000`, `CLONE_NEWPID = 0x20000000`.) -/

def CLONE_NEWNS : Nat := 0x00020000

def CLONE_NEWUTS : Nat := 0x04000000

def CLONE_NEWPID : Nat := 0x20000000

/-! ## Effects and ambient state

An `Effect` is a system call the native function could perform.  The ambient
state records everything such a call could change: the calling process's
namespaces, the process table, the hostname, and the mount table. -/

inductive Effect : Type
  | cloneCall (flags : Nat)
  | forkCall
  | unshareCall (flags : Nat)
  | setHostnameCall (h : String)
  | mountCall (target : String)
  deriving DecidableEq, Repr

/-- Does this effect create a process or namespace in clone style? -/
def Effect.isCloneStyle : Effect → Bool
  | .cloneCall _ => true
  | .forkCall => true
  | .unshareCall _ => true
  | _ => false

/-- Ambient operating-system state visible to the calling process. -/
structure AmbientState : Type where
  hostname : String
  mounts : List String
  pids : List Nat
  namespaceCount : Nat
  deriving DecidableEq, Repr

/-- How each effect changes the ambient state. -/
def applyEffect (s : AmbientState) : Effect → AmbientState
  | .cloneCall _ => { s with pids := s.pids.length :: s.pids, namespaceCount := s.namespaceCount + 1 }
  | .forkCall => { s with pids := s.pids.length :: s.pids }
  | .unshareCall _ => { s with namespaceCount := s.namespaceCount + 1 }
  | .setHostnameCall h => { s with hostname := h }
  | .mountCall t => { s with mounts := t :: s.mounts }

def applyEffects (s : AmbientState) (es : List Effect) : AmbientState :=
  es.foldl applyEffect s

/-! ## The native entry point

Shallow embedding of `Java_com_toycontainer_Container_createNamespacedProcess`.
The two JNI arguments are opaque machine words; we model them as naturals.
The body is exactly two statements: a local assignment
`int flags = CLONE_NEWUTS | CLONE_NEWPID | CLONE_NEWNS;` and `return flags;`.
Neither statement performs any system call, so the effect trace of the body
is empty.  The result is the pair (returned value, effect trace). -/

def createNamespacedProcess (env : Nat) (clazz : Nat) : Nat × List Effect :=
  let flags := CLONE_NEWUTS ||| CLONE_NEWPID ||| CLONE_NEWNS
  (flags, [])

/-- Conversion of a C `int` value to the JNI `jint` return type: reduction
modulo 2^32 followed by two's-complement reinterpretation as a signed
32-bit integer. -/
def toJint (n : Nat) : Int :=
  let m : Nat := n % 2 ^ 32
  if m < 2 ^ 31 then Int.ofNat m else Int.ofNat m - 2 ^ 32

/-! ## Theorems about the native entry point -/

/-- Claim C1: for every invocation, `createNamespacedProcess` returns the
bitwise union of exactly the three namespace flag constants for UTS, PID and
mount isolation, and no other flag bit is set in the returned bitmask: every
bit set in the result is a bit of `CLONE_NEWUTS`, `CLONE_NEWPID` or
`CLONE_NEWNS`. -/
theorem c1_returns_exact_flag_union (env clazz : Nat) :
    (createNamespacedProcess env clazz).1 = CLONE_NEWUTS ||| CLONE_NEWPID ||| CLONE_NEWNS ∧
    ∀ b : Nat, (createNamespacedProcess env clazz).1.testBit b =
      ((CLONE_NEWUTS.testBit b || CLONE_NEWPID.testBit b) || CLONE_NEWNS.testBit b) := by
  refine ⟨rfl, ?_⟩
  intro b
  show (CLONE_NEWUTS ||| CLONE_NEWPID ||| CLONE_NEWNS).testBit b = _
  simp [Nat.testBit_or]

/-- Claim C2: a call to `createNamespacedProcess` has no side effects: its
effect trace, applied to any ambient state (namespaces, process table,
hostname, mounts), leaves that state unchanged; the call only computes and
returns a value. -/
theorem c2_no_side_effects (env clazz : Nat) (s : AmbientState) :
    applyEffects s (createNamespacedProcess env clazz).2 = s := rfl

/-- Claim C5: the computed flags bitmask is never passed to any clone-style
namespace-creating call — the effect trace contains no clone-style effect at
all — and the function's only use of the computed bitmask is as its return
value, which equals the flags. -/
theorem c5_flags_only_returned (env clazz : Nat) :
    ((createNamespacedProcess env clazz).2.filter (fun e => e.isCloneStyle)) = [] ∧
    (createNamespacedProcess env clazz).1 =
      CLONE_NEWUTS ||| CLONE_NEWPID ||| CLONE_NEWNS := ⟨rfl, rfl⟩

/-- Claim C9: `createNamespacedProcess` is deterministic and its result is
independent of both of its inputs: for any two invocations with any `JNIEnv`
pointer and any `jclass` argument, the returned value is the same constant. -/
theorem c9_result_independent_of_inputs (env₁ clazz₁ env₂ clazz₂ : Nat) :
    (createNamespacedProcess env₁ clazz₁).1 = (createNamespacedProcess env₂ clazz₂).1 := rfl

/-- Claim C10, as stated, is false: the returned value is `0x24020000`, whose
decimal value is 604110848, not 604241920 (that is `0x24040000`). -/
theorem c10_counterexample : (createNamespacedProcess 0 0).1 ≠ 604241920 := by decide

/-- Claim C10 (amended): the returned value is exactly `0x24020000`
(604110848), computed in exact arithmetic as
`CLONE_NEWUTS ||| CLONE_NEWPID ||| CLONE_NEWNS`; it is positive and below
`2^31`, so the conversion from `int` to the signed 32-bit `jint` return type
changes neither sign nor value. -/
theorem c10_value_and_jint_representable (env clazz : Nat) :
    (createNamespacedProcess env clazz).1 = 0x24020000 ∧
    (0x24020000 : Nat) = 604110848 ∧
    604110848 = (0x04000000 : Nat) ||| 0x20000000 ||| 0x00020000 ∧
    0 < (createNamespacedProcess env clazz).1 ∧
    (createNamespacedProcess env clazz).1 < 2 ^ 31 ∧
    toJint (createNamespacedProcess env clazz).1 =
      Int.ofNat (createNamespacedProcess env clazz).1 := by
  refine ⟨rfl, by decide, by decide, ?_, ?_, ?_⟩
  · show (0 : Nat) < 604110848
    decide
  · show (604110848 : Nat) < 2 ^ 31
    decide
  · show toJint 604110848 = Int.ofNat 604110848
    decide

/-! ## The NamespaceLauncher model

The specification designs a `NamespaceLauncher` (launch / wait / child setup);
no implementation of it exists under `src/`, so the definitions below are
modelled from the specification's words. -/

inductive NamespaceKind : Type
  | uts
  | pid
  | mnt
  deriving DecidableEq, Repr

/-- Platform-specific bit representation of one namespace kind, translated at
the lowest layer from the typed kind (the constants the source file uses). -/
def kindFlag : NamespaceKind → Nat
  | .uts => CLONE_NEWUTS
  | .pid => CLONE_NEWPID
  | .mnt => CLONE_NEWNS

/-- Modelled from the spec: "Namespace-kind flags combine via bitwise union" —
the combined request for a list of namespace kinds is the bitwise OR of the
individual kind flags. -/
def flagsOfKinds (ks : List NamespaceKind) : Nat :=
  ks.foldr (fun k acc => kindFlag k ||| acc) 0

theorem flagsOfKinds_cons (k : NamespaceKind) (ks : List NamespaceKind) :
    flagsOfKinds (k :: ks) = kindFlag k ||| flagsOfKinds ks := rfl

/-- Modelled from the spec: set of requested namespace kinds, the command
(executable path + argument list), optional working directory, optional
hostname override. -/
structure IsolationOptions : Type where
  kinds : List NamespaceKind
  commandPath : String
  args : List String
  hostnameOverride : Option String := none
  workdir : Option String := none
  deriving DecidableEq, Repr

/-- Modelled from the spec's error taxonomy (section 7). -/
inductive LaunchError : Type
  | PermissionDenied
  | UnsupportedNamespaceKind
  | ProcessCreationFailed (errno : Nat)
  | CommandNotExecutable
  | NotFound
  deriving DecidableEq, Repr

/-- Modelled from the spec: exit status is a normal exit code or the signal
that terminated the process. -/
inductive ExitStatus : Type
  | exited (code : Nat)
  | signaled (sig : Nat)
  deriving DecidableEq, Repr

/-- Modelled from the spec: opaque reference to exactly one created process. -/
structure LaunchHandle : Type where
  pid : Nat
  deriving DecidableEq, Repr

/-- A process as the model sees it: its id and the identifier of the
namespace it lives in, for each namespace kind. -/
structure Proc : Type where
  pid : Nat
  utsNs : Nat
  pidNs : Nat
  mntNs : Nat
  deriving DecidableEq, Repr

def Proc.nsId (p : Proc) : NamespaceKind → Nat
  | .uts => p.utsNs
  | .pid => p.pidNs
  | .mnt => p.mntNs

/-- Launcher-side system state: alive processes, the launcher's tracking
table (pids of launched, not yet reaped processes), and allocation counters
for fresh process ids and fresh namespace ids. -/
structure LauncherState : Type where
  procs : List Proc
  table : List Nat
  nextPid : Nat
  nextNs : Nat
  deriving DecidableEq, Repr

/-- Well-formedness of the allocation counters: every existing process id and
namespace id lies below the corresponding counter. -/
def LauncherState.fresh (s : LauncherState) : Prop :=
  ∀ p ∈ s.procs,
    p.pid < s.nextPid ∧ p.utsNs < s.nextNs ∧ p.pidNs < s.nextNs ∧ p.mntNs < s.nextNs

instance (s : LauncherState) : Decidable s.fresh := by
  unfold LauncherState.fresh
  infer_instance

/-- Modelled from the spec: the initial execution context of the process the
combined process-creation-plus-namespace-creation operation produces — for
each requested kind a freshly created namespace, for every other kind the
parent's namespace. -/
def launchedChild (s : LauncherState) (parent : Proc) (o : IsolationOptions) : Proc where
  pid := s.nextPid
  utsNs := if NamespaceKind.uts ∈ o.kinds then s.nextNs else parent.utsNs
  pidNs := if NamespaceKind.pid ∈ o.kinds then s.nextNs + 1 else parent.pidNs
  mntNs := if NamespaceKind.mnt ∈ o.kinds then s.nextNs + 2 else parent.mntNs

/-- Modelled from the spec: `launch` atomically creates, in one transition, a
new process that already exists inside the requested new namespaces; after
namespace setup the child replaces its program image with the requested
command (summarised by the `isExecutable` oracle) — if that replacement
fails, the child terminates immediately (it never appears among the alive
processes), no handle is produced and `CommandNotExecutable` is reported. -/
def launch (isExecutable : String → Bool) (s : LauncherState) (parent : Proc)
    (o : IsolationOptions) : LauncherState × Except LaunchError LaunchHandle :=
  let child := launchedChild s parent o
  if isExecutable o.commandPath then
    ({ procs := child :: s.procs, table := child.pid :: s.table,
       nextPid := s.nextPid + 1, nextNs := s.nextNs + 3 },
     Except.ok ⟨child.pid⟩)
  else
    ({ s with nextPid := s.nextPid + 1, nextNs := s.nextNs + 3 },
     Except.error LaunchError.CommandNotExecutable)

/-- Modelled from the spec: `wait` blocks until the tracked process
terminates (its eventual status is summarised by the `exitOf` oracle),
returns the exit status and reaps the process — the tracking entry is
removed; a handle whose process has already been reaped yields `NotFound`. -/
def wait (exitOf : Nat → ExitStatus) (s : LauncherState) (h : LaunchHandle) :
    LauncherState × Except LaunchError ExitStatus :=
  if h.pid ∈ s.table then
    ({ s with table := s.table.filter (fun x => x ≠ h.pid),
              procs := s.procs.filter (fun p => p.pid ≠ h.pid) },
     Except.ok (exitOf h.pid))
  else
    (s, Except.error LaunchError.NotFound)

/-- One step the child performs between its creation and the start of the
target command, plus the program-replacement step itself. -/
inductive ChildAction : Type
  | setHostname (h : String)
  | privatizeMounts
  | becomePidOne
  | execCmd (path : String) (args : List String)
  deriving DecidableEq, Repr

def ChildAction.isExecStep : ChildAction → Bool
  | .execCmd _ _ => true
  | _ => false

/-- Modelled from the spec: inside the new process, before running the target
command — hostname change if UTS isolation was requested, mount
privatization if mount isolation was requested, PID-1 establishment if PID
isolation was requested. -/
def nsSetupActions (o : IsolationOptions) : List ChildAction :=
  (if NamespaceKind.uts ∈ o.kinds
    then [ChildAction.setHostname (o.hostnameOverride.getD "container")] else []) ++
  (if NamespaceKind.mnt ∈ o.kinds then [ChildAction.privatizeMounts] else []) ++
  (if NamespaceKind.pid ∈ o.kinds then [ChildAction.becomePidOne] else [])

/-- Modelled from the spec: the child's action sequence — namespace setup
first, then program replacement with the requested command. -/
def childTrace (o : IsolationOptions) : List ChildAction :=
  nsSetupActions o ++ [ChildAction.execCmd o.commandPath o.args]

/-! ## Theorems about the NamespaceLauncher model -/

/-- Claim C4: namespace-kind flags combine via bitwise union — the combined
request for any list of namespace kinds has exactly the bits of the
individual kind flags; the combination is order-independent (invariant under
every permutation of the operands) and idempotent (requesting a kind twice
equals requesting it once). -/
theorem c4_bitwise_union_algebra :
    (∀ (ks : List NamespaceKind) (b : Nat),
      (flagsOfKinds ks).testBit b = ks.any (fun k => (kindFlag k).testBit b)) ∧
    (∀ ks ks' : List NamespaceKind, ks.Perm ks' → flagsOfKinds ks = flagsOfKinds ks') ∧
    (∀ (k : NamespaceKind) (ks : List NamespaceKind),
      flagsOfKinds (k :: k :: ks) = flagsOfKinds (k :: ks)) := by
  refine ⟨?_, ?_, ?_⟩
  · intro ks b
    induction ks with
    | nil => simp [flagsOfKinds]
    | cons x xs ih => simp [flagsOfKinds_cons, Nat.testBit_or, ih]
  · intro ks ks' p
    induction p with
    | nil => rfl
    | cons x _ ih => simp [flagsOfKinds_cons, ih]
    | swap x y l =>
        simp only [flagsOfKinds_cons]
        rw [← Nat.or_assoc, Nat.or_comm (kindFlag y) (kindFlag x), Nat.or_assoc]
    | trans _ _ ih₁ ih₂ => exact ih₁.trans ih₂
  · intro k ks
    simp only [flagsOfKinds_cons]
    rw [← Nat.or_assoc, Nat.or_self]

/-- Witness for C4 at concrete inputs: the permutation clause applied to the
two-element request lists `[uts, pid]` and `[pid, uts]`. -/
theorem c4_bitwise_union_algebra_witness :
    List.Perm [NamespaceKind.uts, NamespaceKind.pid] [NamespaceKind.pid, NamespaceKind.uts] ∧
    flagsOfKinds [NamespaceKind.uts, NamespaceKind.pid] =
      flagsOfKinds [NamespaceKind.pid, NamespaceKind.uts] :=
  ⟨List.Perm.swap NamespaceKind.pid NamespaceKind.uts [],
   c4_bitwise_union_algebra.2.1 _ _ (List.Perm.swap NamespaceKind.pid NamespaceKind.uts [])⟩

/-- Claim C6: for every handle whose process has already been reaped — a
`wait` on it succeeded, removing the tracking entry — a second `wait` on the
same handle returns the `NotFound` error, never silent success or a stale
exit status. -/
theorem c6_second_wait_not_found (exitOf : Nat → ExitStatus) (s s' : LauncherState)
    (h : LaunchHandle) (st : ExitStatus)
    (hw : wait exitOf s h = (s', Except.ok st)) :
    (wait exitOf s' h).2 = Except.error LaunchError.NotFound := by
  unfold wait at hw
  split at hw
  · injection hw with h₁ h₂
    subst h₁
    unfold wait
    rw [if_neg]
    simp [List.mem_filter]
  · injection hw with h₁ h₂
    exact absurd h₂ (by simp)

/-- Witness for C6 at a concrete input: a state tracking pid 7, waited on
once, then waited on again. -/
theorem c6_second_wait_not_found_witness :
    wait (fun _ => ExitStatus.exited 0)
        { procs := [], table := [7], nextPid := 8, nextNs := 1 } ⟨7⟩ =
      ({ procs := [], table := [], nextPid := 8, nextNs := 1 },
        Except.ok (ExitStatus.exited 0)) ∧
    (wait (fun _ => ExitStatus.exited 0)
        { procs := [], table := [], nextPid := 8, nextNs := 1 } ⟨7⟩).2 =
      Except.error LaunchError.NotFound :=
  ⟨rfl, c6_second_wait_not_found (fun _ => ExitStatus.exited 0)
    { procs := [], table := [7], nextPid := 8, nextNs := 1 }
    { procs := [], table := [], nextPid := 8, nextNs := 1 } ⟨7⟩ (ExitStatus.exited 0) rfl⟩

/-- Claim C7: for every `IsolationOptions` whose command path is not
executable, `launch` yields the `CommandNotExecutable` error and never a
handle; the half-created child does not survive — the alive processes and
the tracking table after the call are exactly those before it. -/
theorem c7_command_not_executable (isExecutable : String → Bool) (s : LauncherState)
    (parent : Proc) (o : IsolationOptions)
    (hx : isExecutable o.commandPath = false) :
    (launch isExecutable s parent o).2 = Except.error LaunchError.CommandNotExecutable ∧
    (launch isExecutable s parent o).1.procs = s.procs ∧
    (launch isExecutable s parent o).1.table = s.table := by
  unfold launch
  rw [hx]
  exact ⟨rfl, rfl, rfl⟩

/-- Witness for C7 at a concrete input: launching a command that is nowhere
executable. -/
theorem c7_command_not_executable_witness :
    ((fun _ : String => false) "/no/such/file" = false) ∧
    (launch (fun _ => false) { procs := [], table := [], nextPid := 1, nextNs := 0 }
        { pid := 0, utsNs := 0, pidNs := 0, mntNs := 0 }
        { kinds := [NamespaceKind.uts], commandPath := "/no/such/file", args := [] }).2 =
      Except.error LaunchError.CommandNotExecutable :=
  ⟨rfl,
   (c7_command_not_executable (fun _ => false)
     { procs := [], table := [], nextPid := 1, nextNs := 0 }
     { pid := 0, utsNs := 0, pidNs := 0, mntNs := 0 }
     { kinds := [NamespaceKind.uts], commandPath := "/no/such/file", args := [] } rfl).1⟩

/-- Claim C3: launch is atomic — it is a single combined
process-creation-plus-namespace-creation transition.  From any well-formed
state, one launch step that returns a handle yields a post-state in which the
new process (which did not exist before the step: its pid differs from every
pre-existing process's pid) already lives inside freshly created namespaces
for every requested kind (its namespace id differs from every pre-existing
process's id of that kind) and shares the parent's namespace for every kind
not requested; there is no intermediate create-then-join state. -/
theorem c3_launch_atomic (isExecutable : String → Bool) (s : LauncherState)
    (parent : Proc) (o : IsolationOptions) (s' : LauncherState) (h : LaunchHandle)
    (hfresh : s.fresh)
    (hrun : launch isExecutable s parent o = (s', Except.ok h)) :
    h.pid = (launchedChild s parent o).pid ∧
    launchedChild s parent o ∈ s'.procs ∧
    (∀ p ∈ s.procs, p.pid ≠ (launchedChild s parent o).pid) ∧
    (∀ k ∈ o.kinds, ∀ p ∈ s.procs, (launchedChild s parent o).nsId k ≠ p.nsId k) ∧
    (∀ k ∉ o.kinds, (launchedChild s parent o).nsId k = parent.nsId k) := by
  unfold launch at hrun
  split at hrun
  · injection hrun with hs hh
    injection hh with hh'
    subst hs
    subst hh'
    refine ⟨rfl, List.mem_cons_self _ _, ?_, ?_, ?_⟩
    · intro p hp
      have hb := hfresh p hp
      exact fun he => absurd he.symm (Nat.ne_of_lt hb.1).symm
    · intro k hk p hp
      obtain ⟨h₁, h₂, h₃, h₄⟩ := hfresh p hp
      cases k <;> simp only [launchedChild, Proc.nsId, if_pos hk] <;> omega
    · intro k hk
      cases k <;> simp [launchedChild, Proc.nsId, if_neg hk]
  · injection hrun with hs hh
    exact Except.noConfusion hh

/-- Witness for C3 at a concrete input: launching `/bin/sh` with all three
namespace kinds requested from a state holding one process. -/
theorem c3_launch_atomic_witness :
    LauncherState.fresh
      { procs := [{ pid := 0, utsNs := 0, pidNs := 1, mntNs := 2 }],
        table := [0], nextPid := 1, nextNs := 3 } ∧
    launch (fun _ => true)
      { procs := [{ pid := 0, utsNs := 0, pidNs := 1, mntNs := 2 }],
        table := [0], nextPid := 1, nextNs := 3 }
      { pid := 0, utsNs := 0, pidNs := 1, mntNs := 2 }
      { kinds := [NamespaceKind.uts, NamespaceKind.pid, NamespaceKind.mnt],
        commandPath := "/bin/sh", args := [] } =
      ({ procs := [{ pid := 1, utsNs := 3, pidNs := 4, mntNs := 5 },
                   { pid := 0, utsNs := 0, pidNs := 1, mntNs := 2 }],
         table := [1, 0], nextPid := 2, nextNs := 6 },
       Except.ok ⟨1⟩) ∧
    ((1 : Nat) = (launchedChild
        { procs := [{ pid := 0, utsNs := 0, pidNs := 1, mntNs := 2 }],
          table := [0], nextPid := 1, nextNs := 3 }
        { pid := 0, utsNs := 0, pidNs := 1, mntNs := 2 }
        { kinds := [NamespaceKind.uts, NamespaceKind.pid, NamespaceKind.mnt],
          commandPath := "/bin/sh", args := [] }).pid ∧
      launchedChild
        { procs := [{ pid := 0, utsNs := 0, pidNs := 1, mntNs := 2 }],
          table := [0], nextPid := 1, nextNs := 3 }
        { pid := 0, utsNs := 0, pidNs := 1, mntNs := 2 }
        { kinds := [NamespaceKind.uts, NamespaceKind.pid, NamespaceKind.mnt],
          commandPath := "/bin/sh", args := [] } ∈
        ({ procs := [{ pid := 1, utsNs := 3, pidNs := 4, mntNs := 5 },
                     { pid := 0, utsNs := 0, pidNs := 1, mntNs := 2 }],
           table := [1, 0], nextPid := 2, nextNs := 6 } : LauncherState).procs ∧
      (∀ p ∈ ({ procs := [{ pid := 0, utsNs := 0, pidNs := 1, mntNs := 2 }],
                table := [0], nextPid := 1, nextNs := 3 } : LauncherState).procs,
        p.pid ≠ (launchedChild
          { procs := [{ pid := 0, utsNs := 0, pidNs := 1, mntNs := 2 }],
            table := [0], nextPid := 1, nextNs := 3 }
          { pid := 0, utsNs := 0, pidNs := 1, mntNs := 2 }
          { kinds := [NamespaceKind.uts, NamespaceKind.pid, NamespaceKind.mnt],
            commandPath := "/bin/sh", args := [] }).pid) ∧
      (∀ k ∈ ({ kinds := [NamespaceKind.uts, NamespaceKind.pid, NamespaceKind.mnt],
                commandPath := "/bin/sh", args := [] } : IsolationOptions).kinds,
        ∀ p ∈ ({ procs := [{ pid := 0, utsNs := 0, pidNs := 1, mntNs := 2 }],
                 table := [0], nextPid := 1, nextNs := 3 } : LauncherState).procs,
          (launchedChild
            { procs := [{ pid := 0, utsNs := 0, pidNs := 1, mntNs := 2 }],
              table := [0], nextPid := 1, nextNs := 3 }
            { pid := 0, utsNs := 0, pidNs := 1, mntNs := 2 }
            { kinds := [NamespaceKind.uts, NamespaceKind.pid, NamespaceKind.mnt],
              commandPath := "/bin/sh", args := [] }).nsId k ≠ p.nsId k) ∧
      (∀ k ∉ ({ kinds := [NamespaceKind.uts, NamespaceKind.pid, NamespaceKind.mnt],
                commandPath := "/bin/sh", args := [] } : IsolationOptions).kinds,
        (launchedChild
          { procs := [{ pid := 0, utsNs := 0, pidNs := 1, mntNs := 2 }],
            table := [0], nextPid := 1, nextNs := 3 }
          { pid := 0, utsNs := 0, pidNs := 1, mntNs := 2 }
          { kinds := [NamespaceKind.uts, NamespaceKind.pid, NamespaceKind.mnt],
            commandPath := "/bin/sh", args := [] }).nsId k =
          ({ pid := 0, utsNs := 0, pidNs := 1, mntNs := 2 } : Proc).nsId k)) :=
  ⟨by decide, rfl,
   c3_launch_atomic (fun _ => true)
     { procs := [{ pid := 0, utsNs := 0, pidNs := 1, mntNs := 2 }],
       table := [0], nextPid := 1, nextNs := 3 }
     { pid := 0, utsNs := 0, pidNs := 1, mntNs := 2 }
     { kinds := [NamespaceKind.uts, NamespaceKind.pid, NamespaceKind.mnt],
       commandPath := "/bin/sh", args := [] }
     { procs := [{ pid := 1, utsNs := 3, pidNs := 4, mntNs := 5 },
                 { pid := 0, utsNs := 0, pidNs := 1, mntNs := 2 }],
       table := [1, 0], nextPid := 2, nextNs := 6 }
     ⟨1⟩ (by decide) rfl⟩

theorem nsSetupActions_no_exec (o : IsolationOptions) :
    ∀ a ∈ nsSetupActions o, a.isExecStep = false := by
  intro a ha
  simp only [nsSetupActions, List.mem_append] at ha
  rcases ha with (h | h) | h <;> split at h <;>
    simp_all [ChildAction.isExecStep]

/-- Claim C8: in the child, namespace setup is guaranteed complete before the
target command begins executing — in the child's action sequence every setup
(non-program-replacement) action occupies a strictly earlier position than
the program-replacement action, so no reordering is possible. -/
theorem c8_setup_before_exec (o : IsolationOptions) (i j : Nat) (a b : ChildAction)
    (hi : (childTrace o)[i]? = some a) (ha : a.isExecStep = false)
    (hj : (childTrace o)[j]? = some b) (hb : b.isExecStep = true) :
    i < j := by
  have hlen : (childTrace o).length = (nsSetupActions o).length + 1 := by
    simp [childTrace]
  have hjlt : j < (nsSetupActions o).length + 1 := by
    have hjb := (List.getElem?_eq_some_iff.mp hj).1
    omega
  have hilt : i < (nsSetupActions o).length + 1 := by
    have hib := (List.getElem?_eq_some_iff.mp hi).1
    omega
  have hjeq : j = (nsSetupActions o).length := by
    by_contra hne
    have hjlt' : j < (nsSetupActions o).length := by omega
    have heq : (childTrace o)[j]? = (nsSetupActions o)[j]? := by
      unfold childTrace
      exact List.getElem?_append_left hjlt'
    rw [heq] at hj
    have hmem : b ∈ nsSetupActions o := List.getElem?_mem hj
    have hfalse := nsSetupActions_no_exec o b hmem
    rw [hb] at hfalse
    exact Bool.noConfusion hfalse
  have hine : i ≠ (nsSetupActions o).length := by
    intro he
    have heq : (childTrace o)[i]? = some (ChildAction.execCmd o.commandPath o.args) := by
      unfold childTrace
      rw [he]
      exact List.getElem?_concat_length _ _
    rw [heq] at hi
    injection hi with hi'
    rw [← hi'] at ha
    simp [ChildAction.isExecStep] at ha
  omega

/-- Witness for C8 at a concrete input: with all three kinds requested, the
hostname-change setup action sits at position 0 and the program-replacement
action at position 3, and indeed 0 < 3. -/
theorem c8_setup_before_exec_witness :
    (childTrace { kinds := [NamespaceKind.uts, NamespaceKind.pid, NamespaceKind.mnt],
                  commandPath := "/bin/sh", args := [] })[0]? =
      some (ChildAction.setHostname "container") ∧
    (ChildAction.setHostname "container").isExecStep = false ∧
    (childTrace { kinds := [NamespaceKind.uts, NamespaceKind.pid, NamespaceKind.mnt],
                  commandPath := "/bin/sh", args := [] })[3]? =
      some (ChildAction.execCmd "/bin/sh" []) ∧
    (ChildAction.execCmd "/bin/sh" []).isExecStep = true ∧
    (0 : Nat) < 3 :=
  ⟨rfl, rfl, rfl, rfl,
   c8_setup_before_exec
     { kinds := [NamespaceKind.uts, NamespaceKind.pid, NamespaceKind.mnt],
       commandPath := "/bin/sh", args := [] }
     0 3 (ChildAction.setHostname "container") (ChildAction.execCmd "/bin/sh" [])
     rfl rfl rfl rfl⟩
